import Mathlib

/-!
Verification development for a single-file web-scraping RAG pipeline
(`src/index.js`).  The pipeline scrapes one webpage with a headless
browser, embeds its text, stores it in a vector database, and answers one
question from the top-1 retrieved document.

The embedding below models each external call (browser automation,
embedding API, vector-store API, generative-model API) as an oracle value
of type `Except Err _` supplied through an environment structure, and each
pipeline function as a pure Lean function from that environment to the
observable outcome: the returned value or propagated error, the console
events emitted, and (for the scraper) whether the browser was closed.
All pure string manipulation (whitespace normalization, truncation,
prompt construction) is translated directly from the JavaScript source.
-/

namespace WebScraper

/-- Errors thrown by external calls; JavaScript errors carry a message. -/
structure Err where
  message : String
deriving Repr, DecidableEq

/-- Console events and generative-model calls observable during a run.
`log` models `console.log`, `logError` models `console.error` with its
leading tag argument, and `genCall` records a call to
`model.generateContent` with the prompt it was given. -/
inductive Event where
  | log (msg : String)
  | logError (tag : String) (msg : String)
  | genCall (prompt : String)
deriving Repr, DecidableEq

/-- Characters matched by JavaScript regular-expression `\s` (ECMA-262
WhiteSpace plus LineTerminator), which is also the set removed by
`String.prototype.trim`. -/
def jsWhitespace (c : Char) : Bool :=
  c = ' ' || c = '\t' || c = '\n' || c = '\r' || c = '\x0b' || c = '\x0c' ||
  c = '\u00A0' || c = '\u1680' ||
  (0x2000 ≤ c.toNat && c.toNat ≤ 0x200A) ||
  c = '\u2028' || c = '\u2029' || c = '\u202F' || c = '\u205F' ||
  c = '\u3000' || c = '\uFEFF'

/-- State machine for `s.replace(/\s+/g, ' ')`.  `inRun` is true exactly
when the previous input character was whitespace: a whitespace character
that starts a run emits one `' '`, a whitespace character inside a run
emits nothing, and every other character is copied. -/
def collapseWsAux : Bool → List Char → List Char
  | _, [] => []
  | inRun, c :: rest =>
    if jsWhitespace c then
      if inRun then collapseWsAux true rest
      else ' ' :: collapseWsAux true rest
    else c :: collapseWsAux false rest

/-- Model of `s.replace(/\s+/g, ' ')`: every maximal run of whitespace
characters is replaced by a single space. -/
def collapseWs (l : List Char) : List Char :=
  collapseWsAux false l

/-- Model of `String.prototype.trim`: drop whitespace from both ends. -/
def trimWs (l : List Char) : List Char :=
  List.rdropWhile jsWhitespace (l.dropWhile jsWhitespace)

/-- Model of `el.innerText.replace(/\s+/g, ' ').trim()` applied to the raw
inner text of the page body (line 33 of `src/index.js`). -/
def normalizeBody (s : String) : String :=
  ⟨trimWs (collapseWs s.data)⟩

/-- Model of `s.slice(0, n)` on a JavaScript string for `n ≥ 0`: the first
`n` characters, or the whole string when it is shorter. -/
def jsSlice (s : String) (n : Nat) : String :=
  ⟨s.data.take n⟩

/-- No two adjacent characters of `l` are both whitespace; this is the
absence of any run of two or more consecutive whitespace characters. -/
def noTwoWs (l : List Char) : Prop :=
  l.Chain' (fun a b => jsWhitespace a = false ∨ jsWhitespace b = false)

/-- Result of a successful `scrapeWebpage` call (its return object). -/
structure ScrapedPage where
  title : String
  metaDescription : String
  body : String
deriving Repr, DecidableEq

/-- Oracle outcomes for each external step of `scrapeWebpage`, in program
order: `puppeteer.launch`, `browser.newPage`, `page.setUserAgent`,
`page.goto`, the meta-description `$eval` (fails when the element is
missing), `page.title`, and the body `$eval` returning the raw
`innerText` before normalization. -/
structure FetchEnv where
  launch : Except Err Unit
  newPage : Except Err Unit
  setUserAgent : Except Err Unit
  goto : Except Err Unit
  metaEval : Except Err String
  titleCall : Except Err String
  bodyEval : Except Err String

/-- Observable outcome of a `scrapeWebpage` call: the returned page or the
propagated error, whether a browser instance was launched, whether
`browser.close()` was reached before returning or propagating, and the
console events emitted. -/
structure ScrapeOutcome where
  result : Except Err ScrapedPage
  browserLaunched : Bool
  browserClosed : Bool
  events : List Event
deriving Repr

/-- Model of `scrapeWebpage` (lines 15-42 of `src/index.js`).  The only
`try`/`catch` in the source surrounds the meta-description `$eval`; every
other throwing step propagates, and `browser.close()` is executed only on
the straight-line path after the body extraction. -/
def scrapeWebpage (env : FetchEnv) : ScrapeOutcome :=
  match env.launch with
  | .error e => ⟨.error e, false, false, []⟩
  | .ok _ =>
    match env.newPage with
    | .error e => ⟨.error e, true, false, []⟩
    | .ok _ =>
      match env.setUserAgent with
      | .error e => ⟨.error e, true, false, []⟩
      | .ok _ =>
        match env.goto with
        | .error e => ⟨.error e, true, false, []⟩
        | .ok _ =>
          let meta :=
            match env.metaEval with
            | .ok content => (content, ([] : List Event))
            | .error _ => ("", [Event.log "Meta description not found"])
          match env.titleCall with
          | .error e => ⟨.error e, true, false, meta.2⟩
          | .ok pageTitle =>
            match env.bodyEval with
            | .error e => ⟨.error e, true, false, meta.2⟩
            | .ok rawInner =>
              ⟨.ok ⟨pageTitle, meta.1, normalizeBody rawInner⟩, true, true, meta.2⟩

/-- The reserved collection name (`WEB_COLLECTION` in the source). -/
def WEB_COLLECTION : String := "WEB_SCRAPED_DATA_COLLECTION"

/-- Embedding vectors as returned by the embedding model. -/
abbrev EmbeddingVector := List Float

/-- A stored vector-database record: id, embedding, metadata. -/
structure StoredDoc where
  id : String
  embedding : EmbeddingVector
  title : String
  metaDescription : String
  body : String

/-- The vector store's state: collections by name, each holding records. -/
abbrev ChromaState := List (String × List StoredDoc)

/-- Whether a collection with the given name exists in the store. -/
def hasCollection (s : ChromaState) (name : String) : Bool :=
  s.any (fun p => p.1 == name)

/-- Model of `chromaClient.deleteCollection`.  `ext` injects an external
failure of any cause (network, server); absent that, deleting a missing
collection throws a not-found error, and deleting an existing one removes
every collection of that name. -/
def deleteCollectionCall (ext : Option Err) (s : ChromaState) (name : String) :
    Except Err ChromaState :=
  match ext with
  | some e => .error e
  | none =>
    if hasCollection s name then
      .ok (s.filter (fun p => !(p.1 == name)))
    else
      .error ⟨"Collection " ++ name ++ " does not exist."⟩

/-- Model of `resetCollection` (lines 52-59): try to delete the reserved
collection, log on success, and swallow every error in an empty `catch`.
The third component is the error propagated to the caller. -/
def resetCollection (ext : Option Err) (s : ChromaState) :
    ChromaState × List Event × Option Err :=
  match deleteCollectionCall ext s WEB_COLLECTION with
  | .ok s2 => (s2, [Event.log "🗑️ Collection reset"], none)
  | .error _ => (s, [], none)

/-- Metadata entry returned by a vector-store query; the fields are the
ones stored at ingestion time (line 82). -/
structure Metadata where
  title : String
  metaDescription : String
  body : String
deriving Repr, DecidableEq

/-- Result of `collection.query`: `metadatas` is a list (one entry per
query embedding) of lists (one entry per returned neighbor). -/
structure QueryResult where
  metadatas : List (List Metadata)
deriving Repr, DecidableEq

/-- Model of the guard `!queryResult.metadatas[0]?.length` followed by
`queryResult.metadatas[0][0]`: `none` when slot 0 is absent or empty,
otherwise the first metadata entry. -/
def topMeta (qr : QueryResult) : Option Metadata :=
  match qr.metadatas.head? with
  | none => none
  | some inner => inner.head?

/-- Literal pieces of the template string at lines 118-124, including the
source indentation carried into the template. -/
def promptPiece1 : String := "Analyze this webpage content:\n        Title: "

/-- Second literal piece of the prompt template, before the context. -/
def promptPiece2 : String := "\n        Content: "

/-- Third literal piece of the prompt template, before the question. -/
def promptPiece3 : String := "\n        \n        Question: "

/-- Final literal piece of the prompt template: the grounding instruction
and the fallback sentence. -/
def promptPiece4 : String :=
  "\n        \n        Answer using ONLY the content above. If unsure, say: \"I couldn't find an answer.\""

/-- The prompt built by `chat` from the title, truncated context, and
question. -/
def mkPrompt (title context question : String) : String :=
  promptPiece1 ++ title ++ promptPiece2 ++ context ++ promptPiece3 ++
    question ++ promptPiece4

/-- The context passed to the generative model: `body.slice(0, 3000)`
(line 108). -/
def chatContext (md : Metadata) : String :=
  jsSlice md.body 3000

/-- The context as the specification words it: exactly the first 3000
characters when the body is longer than 3000 characters, and the whole
body otherwise.  Stated from the spec, to be compared with `chatContext`
which is stated from the code. -/
def specContext (body : String) : String :=
  if 3000 < body.data.length then ⟨body.data.take 3000⟩ else body

/-- Oracle outcomes for the external steps of `chat`, in program order:
embedding the question, `getOrCreateCollection`, `collection.query`, and
the generative call (a function of the prompt). -/
structure ChatEnv where
  embedResult : Except Err EmbeddingVector
  getCollection : Except Err Unit
  queryResult : Except Err QueryResult
  generate : String → Except Err String

/-- The body of `chat`'s `try` block (lines 90-129): events emitted and
the error that escapes the block, if any. -/
def chatBody (env : ChatEnv) (question : String) : List Event × Option Err :=
  match env.embedResult with
  | .error e => ([], some e)
  | .ok _ =>
    match env.getCollection with
    | .error e => ([], some e)
    | .ok _ =>
      match env.queryResult with
      | .error e => ([], some e)
      | .ok qr =>
        match topMeta qr with
        | none => ([Event.log "🤖: No relevant context found"], none)
        | some md =>
          let prompt := mkPrompt md.title (chatContext md) question
          match env.generate prompt with
          | .error e => ([Event.genCall prompt], some e)
          | .ok answer => ([Event.genCall prompt, Event.log ("🤖: " ++ answer)], none)

/-- Model of `chat` (lines 89-134): the `try` body wrapped in the local
`catch` that logs `Chat Error:` and returns normally.  The second
component is the error propagated to the caller. -/
def chat (env : ChatEnv) (question : String) : List Event × Option Err :=
  match chatBody env question with
  | (evs, none) => (evs, none)
  | (evs, some e) => (evs ++ [Event.logError "Chat Error:" e.message], none)

/-- Oracle outcomes for the external steps of `ingest`: the scrape
environment, embedding the body, and the insert
(`getOrCreateCollection` plus `collection.add`). -/
structure IngestEnv where
  fetch : FetchEnv
  embed : Except Err EmbeddingVector
  insert : Except Err Unit

/-- Model of `ingest` (lines 73-86): no local `catch`, so every failure
propagates (second component `some e`). -/
def ingest (env : IngestEnv) (url : String) : List Event × Option Err :=
  let out := scrapeWebpage env.fetch
  match out.result with
  | .error e => (out.events, some e)
  | .ok page =>
    let evs := out.events ++ [Event.log ("📖 Scraped Title: " ++ page.title)]
    match env.embed with
    | .error e => (evs, some e)
    | .ok _ =>
      match env.insert with
      | .error e => (evs, some e)
      | .ok _ => (evs ++ [Event.log ("✅ Successfully ingested: " ++ url)], none)

/-- The hardcoded URL of `main` (line 139). -/
def mainUrl : String := "http://books.toscrape.com/"

/-- The hardcoded question of `main` (line 142). -/
def mainQuestion : String := "Give me 550 words on this site?"

/-- Oracles for a whole `main` run. -/
structure MainEnv where
  resetExt : Option Err
  ingestEnv : IngestEnv
  chatEnv : ChatEnv

/-- Model of `main` (lines 137-146): reset, ingest, chat in sequence, with
a single top-level `catch` that logs `Main Error:` with the error's
message and ends the run. -/
def main (env : MainEnv) (s : ChromaState) : List Event :=
  let r := resetCollection env.resetExt s
  match ingest env.ingestEnv mainUrl with
  | (evs2, some e) => r.2.1 ++ evs2 ++ [Event.logError "Main Error:" e.message]
  | (evs2, none) =>
    match chat env.chatEnv mainQuestion with
    | (evs3, none) => r.2.1 ++ evs2 ++ evs3
    | (evs3, some e) =>
      r.2.1 ++ evs2 ++ evs3 ++ [Event.logError "Main Error:" e.message]

/-- Fixture for truncation checks: a stored document whose body is 5000
characters long. -/
def mdFive : Metadata :=
  ⟨"Example Title", "a meta description", ⟨List.replicate 5000 'a'⟩⟩

/-- Fixture: a query result whose top-1 slot holds `mdFive`. -/
def qrFive : QueryResult := ⟨[[mdFive]]⟩

/-- Fixture: a chat environment whose query returns `qrFive` and whose
external calls all succeed. -/
def chatEnvFive : ChatEnv := ⟨.ok [], .ok (), .ok qrFive, fun _ => .ok "answer text"⟩

/-- Fixture: a stored document for the noninterference check. -/
def mdDescA : Metadata := ⟨"Shared Title", "first description", "shared body"⟩

/-- Fixture: same title and body as `mdDescA`, different meta description. -/
def mdDescB : Metadata := ⟨"Shared Title", "second description", "shared body"⟩

/-- Fixture: a chat environment whose query returns `mdDescA` top-1. -/
def chatEnvDescA : ChatEnv := ⟨.ok [], .ok (), .ok ⟨[[mdDescA]]⟩, fun _ => .ok "ans"⟩

/-- Fixture: a fully successful fetch environment. -/
def fetchEnvOk : FetchEnv :=
  ⟨.ok (), .ok (), .ok (), .ok (), .ok "d", .ok "Books", .ok "raw body"⟩

/-- Fixture: an ingest run whose embedding call fails. -/
def ingestEnvEmbedFail : IngestEnv := ⟨fetchEnvOk, .error ⟨"quota exceeded"⟩, .ok ()⟩

/-- Fixture: a chat run whose embedding call fails. -/
def chatEnvEmbedFail : ChatEnv :=
  ⟨.error ⟨"API key not valid"⟩, .ok (), .ok ⟨[]⟩, fun _ => .ok "a"⟩

/-- Fixture: a full `main` environment whose ingest embedding fails. -/
def mainEnvEmbedFail : MainEnv :=
  ⟨none, ingestEnvEmbedFail, ⟨.ok [], .ok (), .ok ⟨[[]]⟩, fun _ => .ok "a"⟩⟩

/-! Helper lemmas about whitespace normalization. -/

theorem head?_collapseWsAux_true (l : List Char) :
    ∀ x, (collapseWsAux true l).head? = some x → jsWhitespace x = false := by
  induction l with
  | nil => intro x hx; simp [collapseWsAux] at hx
  | cons c rest ih =>
    intro x hx
    by_cases hc : jsWhitespace c
    · rw [show collapseWsAux true (c :: rest) = collapseWsAux true rest by
        simp [collapseWsAux, hc]] at hx
      exact ih x hx
    · rw [show collapseWsAux true (c :: rest) = c :: collapseWsAux false rest by
        simp [collapseWsAux, hc]] at hx
      simp only [List.head?_cons, Option.some.injEq] at hx
      subst hx
      exact Bool.not_eq_true _ |>.mp hc

theorem chain'_collapseWsAux (l : List Char) :
    ∀ inRun, noTwoWs (collapseWsAux inRun l) := by
  induction l with
  | nil => intro inRun; simp [collapseWsAux, noTwoWs]
  | cons c rest ih =>
    intro inRun
    by_cases hc : jsWhitespace c
    · cases inRun
      · rw [show collapseWsAux false (c :: rest) = ' ' :: collapseWsAux true rest by
          simp [collapseWsAux, hc]]
        rw [noTwoWs, List.chain'_cons']
        exact ⟨fun y hy => Or.inr (head?_collapseWsAux_true rest y hy), ih true⟩
      · rw [show collapseWsAux true (c :: rest) = collapseWsAux true rest by
          simp [collapseWsAux, hc]]
        exact ih true
    · rw [show collapseWsAux inRun (c :: rest) = c :: collapseWsAux false rest by
        simp [collapseWsAux, hc]]
      rw [noTwoWs, List.chain'_cons']
      exact ⟨fun y _ => Or.inl (Bool.not_eq_true _ |>.mp hc), ih false⟩

theorem chain'_collapseWs (l : List Char) : noTwoWs (collapseWs l) :=
  chain'_collapseWsAux l false

theorem head?_dropWhile_ws (l : List Char) (c : Char)
    (h : (l.dropWhile jsWhitespace).head? = some c) : jsWhitespace c = false := by
  induction l with
  | nil => simp [List.dropWhile] at h
  | cons a r ih =>
    by_cases ha : jsWhitespace a
    · rw [List.dropWhile_cons_of_pos ha] at h
      exact ih h
    · rw [List.dropWhile_cons_of_neg ha] at h
      simp only [List.head?_cons, Option.some.injEq] at h
      subst h
      exact Bool.not_eq_true _ |>.mp ha

theorem trimWs_between (l : List Char) : trimWs l <:+: l := by
  obtain ⟨t, ht⟩ := List.rdropWhile_prefix jsWhitespace (l.dropWhile jsWhitespace)
  obtain ⟨s, hs⟩ := List.dropWhile_suffix (l := l) jsWhitespace
  have ht2 : trimWs l ++ t = l.dropWhile jsWhitespace := ht
  exact ⟨s, t, by rw [List.append_assoc, ht2, hs]⟩

theorem noTwoWs_trimWs (l : List Char) (h : noTwoWs l) : noTwoWs (trimWs l) :=
  List.Chain'.infix h (trimWs_between l)

theorem trimWs_head_not_ws (l : List Char) (c : Char)
    (h : (trimWs l).head? = some c) : jsWhitespace c = false := by
  obtain ⟨t, ht⟩ := List.rdropWhile_prefix jsWhitespace (l.dropWhile jsWhitespace)
  have ht2 : trimWs l ++ t = l.dropWhile jsWhitespace := ht
  cases htr : trimWs l with
  | nil => rw [htr] at h; simp at h
  | cons d r =>
    rw [htr] at h
    simp only [List.head?_cons, Option.some.injEq] at h
    subst h
    apply head?_dropWhile_ws l d
    rw [← ht2, htr]
    simp

theorem trimWs_getLast_not_ws (l : List Char) (c : Char)
    (h : (trimWs l).getLast? = some c) : jsWhitespace c = false := by
  rw [trimWs] at h
  set k := l.dropWhile jsWhitespace with hk
  rcases hne : List.rdropWhile jsWhitespace k with _ | ⟨d, r⟩
  · rw [hne] at h; simp at h
  · have hnn : List.rdropWhile jsWhitespace k ≠ [] := by rw [hne]; simp
    have hlast := List.rdropWhile_last_not jsWhitespace k hnn
    rw [List.getLast?_eq_getLast _ hnn] at h
    simp only [Option.some.injEq] at h
    subst h
    exact Bool.not_eq_true _ |>.mp hlast

theorem normalizeBody_noTwoWs (s : String) : noTwoWs (normalizeBody s).data :=
  noTwoWs_trimWs _ (chain'_collapseWs s.data)

theorem normalizeBody_head (s : String) (c : Char)
    (h : (normalizeBody s).data.head? = some c) : jsWhitespace c = false :=
  trimWs_head_not_ws _ c h

theorem normalizeBody_getLast (s : String) (c : Char)
    (h : (normalizeBody s).data.getLast? = some c) : jsWhitespace c = false :=
  trimWs_getLast_not_ws _ c h

/-! Claim C1. -/

/-- C1 counterexample: when navigation (`page.goto`) throws, `scrapeWebpage`
propagates the error without reaching `browser.close()` (line 35 runs only
on the straight-line path): the launched browser instance is not released
on this failure path, so the claim as stated is false. -/
theorem scrapeWebpage_goto_failure_leaves_browser_open :
    scrapeWebpage ⟨.ok (), .ok (), .ok (), .error ⟨"net::ERR_CONNECTION_TIMED_OUT at http://books.toscrape.com/"⟩,
        .ok "desc", .ok "Books", .ok "body text"⟩ =
      ⟨.error ⟨"net::ERR_CONNECTION_TIMED_OUT at http://books.toscrape.com/"⟩, true, false, []⟩ :=
  rfl

/-- C1 amended: `scrapeWebpage` closes the browser exactly on the success
path (including the locally-recovered missing-meta-description case); on
every propagated failure after launch — navigation, title retrieval, or
body extraction — the browser instance is left open. -/
theorem scrapeWebpage_browserClosed_iff_success (env : FetchEnv) :
    (scrapeWebpage env).browserClosed = (scrapeWebpage env).result.isOk := by
  obtain ⟨l, np, ua, g, me, t, b⟩ := env
  rcases l with e | u <;> rcases np with e2 | u2 <;> rcases ua with e3 | u3 <;>
    rcases g with e4 | u4 <;> rcases me with e5 | m <;> rcases t with e6 | pt <;>
    rcases b with e7 | raw <;> rfl

/-! Claim C2. -/

/-- C2: for every successful `scrapeWebpage` call, whatever raw inner text
the page produced, the returned `body` contains no two consecutive
whitespace characters and has no leading or trailing whitespace. -/
theorem scrapeWebpage_body_normalized (env : FetchEnv) (page : ScrapedPage)
    (h : (scrapeWebpage env).result = .ok page) :
    noTwoWs page.body.data
    ∧ (∀ c, page.body.data.head? = some c → jsWhitespace c = false)
    ∧ (∀ c, page.body.data.getLast? = some c → jsWhitespace c = false) := by
  obtain ⟨l, np, ua, g, me, t, b⟩ := env
  rcases l with e | u
  · simp [scrapeWebpage] at h
  rcases np with e | u2
  · simp [scrapeWebpage] at h
  rcases ua with e | u3
  · simp [scrapeWebpage] at h
  rcases g with e | u4
  · simp [scrapeWebpage] at h
  rcases t with e | pt
  · rcases me with e5 | m <;> simp [scrapeWebpage] at h
  rcases b with e | raw
  · rcases me with e5 | m <;> simp [scrapeWebpage] at h
  have hb : page.body = normalizeBody raw := by
    rcases me with e5 | m <;>
      · simp only [scrapeWebpage, Except.ok.injEq] at h
        rw [← h]
  rw [hb]
  exact ⟨normalizeBody_noTwoWs raw, fun c hc => normalizeBody_head raw c hc,
    fun c hc => normalizeBody_getLast raw c hc⟩

/-- C2 witness: a concrete successful scrape whose raw inner text has
leading, trailing, and repeated internal whitespace; the hypothesis is
discharged by `rfl` and the normalized body evaluates concretely. -/
theorem scrapeWebpage_body_normalized_witness :
    (scrapeWebpage ⟨.ok (), .ok (), .ok (), .ok (), .ok "desc", .ok "Books",
        .ok "  All products \t\n  Travel   Mystery  "⟩).result =
      .ok ⟨"Books", "desc", normalizeBody "  All products \t\n  Travel   Mystery  "⟩
    ∧ normalizeBody "  All products \t\n  Travel   Mystery  " = "All products Travel Mystery"
    ∧ (noTwoWs (ScrapedPage.body ⟨"Books", "desc", normalizeBody "  All products \t\n  Travel   Mystery  "⟩).data
      ∧ (∀ c, (ScrapedPage.body ⟨"Books", "desc", normalizeBody "  All products \t\n  Travel   Mystery  "⟩).data.head? = some c → jsWhitespace c = false)
      ∧ (∀ c, (ScrapedPage.body ⟨"Books", "desc", normalizeBody "  All products \t\n  Travel   Mystery  "⟩).data.getLast? = some c → jsWhitespace c = false)) :=
  ⟨rfl, by decide,
    scrapeWebpage_body_normalized
      ⟨.ok (), .ok (), .ok (), .ok (), .ok "desc", .ok "Books",
        .ok "  All products \t\n  Travel   Mystery  "⟩
      ⟨"Books", "desc", normalizeBody "  All products \t\n  Travel   Mystery  "⟩ rfl⟩

/-! Claim C6. -/

/-- C6: when every step succeeds except the meta-description lookup (the
page has no such element), `scrapeWebpage` recovers locally: it logs the
recovery, returns `metaDescription = ""`, and the fetch as a whole still
succeeds. -/
theorem scrapeWebpage_missing_meta_recovers (env : FetchEnv) (e : Err)
    (pageTitle rawInner : String)
    (h1 : env.launch = .ok ()) (h2 : env.newPage = .ok ())
    (h3 : env.setUserAgent = .ok ()) (h4 : env.goto = .ok ())
    (h5 : env.metaEval = .error e) (h6 : env.titleCall = .ok pageTitle)
    (h7 : env.bodyEval = .ok rawInner) :
    (scrapeWebpage env).result = .ok ⟨pageTitle, "", normalizeBody rawInner⟩
    ∧ (scrapeWebpage env).result.isOk = true
    ∧ (scrapeWebpage env).browserClosed = true
    ∧ (scrapeWebpage env).events = [Event.log "Meta description not found"] := by
  obtain ⟨l, np, ua, g, me, t, b⟩ := env
  simp only at h1 h2 h3 h4 h5 h6 h7
  subst h1; subst h2; subst h3; subst h4; subst h5; subst h6; subst h7
  exact ⟨rfl, rfl, rfl, rfl⟩

/-- C6 witness: a concrete fetch with no meta-description element, whose
hypotheses are discharged by `rfl`. -/
theorem scrapeWebpage_missing_meta_recovers_witness :
    (FetchEnv.metaEval ⟨.ok (), .ok (), .ok (), .ok (),
        .error ⟨"Error: failed to find element matching selector"⟩,
        .ok "Books to Scrape", .ok "All products"⟩ =
      .error ⟨"Error: failed to find element matching selector"⟩)
    ∧ ((scrapeWebpage ⟨.ok (), .ok (), .ok (), .ok (),
          .error ⟨"Error: failed to find element matching selector"⟩,
          .ok "Books to Scrape", .ok "All products"⟩).result =
        .ok ⟨"Books to Scrape", "", normalizeBody "All products"⟩
      ∧ (scrapeWebpage ⟨.ok (), .ok (), .ok (), .ok (),
          .error ⟨"Error: failed to find element matching selector"⟩,
          .ok "Books to Scrape", .ok "All products"⟩).result.isOk = true
      ∧ (scrapeWebpage ⟨.ok (), .ok (), .ok (), .ok (),
          .error ⟨"Error: failed to find element matching selector"⟩,
          .ok "Books to Scrape", .ok "All products"⟩).browserClosed = true
      ∧ (scrapeWebpage ⟨.ok (), .ok (), .ok (), .ok (),
          .error ⟨"Error: failed to find element matching selector"⟩,
          .ok "Books to Scrape", .ok "All products"⟩).events =
        [Event.log "Meta description not found"]) :=
  ⟨rfl,
    scrapeWebpage_missing_meta_recovers
      ⟨.ok (), .ok (), .ok (), .ok (),
        .error ⟨"Error: failed to find element matching selector"⟩,
        .ok "Books to Scrape", .ok "All products"⟩
      ⟨"Error: failed to find element matching selector"⟩
      "Books to Scrape" "All products" rfl rfl rfl rfl rfl rfl rfl⟩

/-! Claim C3. -/

/-- C3: whenever `chat` reaches answer generation, the context embedded in
the prompt is `chatContext md` (the code's `body.slice(0, 3000)`), and
`chatContext` coincides with the spec's description: exactly the first
3000 characters when the body is longer, and the whole body otherwise. -/
theorem chat_context_is_first_3000 (env : ChatEnv) (q : String)
    (qr : QueryResult) (md : Metadata)
    (h1 : env.embedResult.isOk = true) (h2 : env.getCollection.isOk = true)
    (h3 : env.queryResult = .ok qr) (h4 : topMeta qr = some md) :
    (∃ rest, (chatBody env q).1 =
      Event.genCall (mkPrompt md.title (chatContext md) q) :: rest)
    ∧ chatContext md = specContext md.body := by
  obtain ⟨er, gc, qres, gen⟩ := env
  rcases er with e | emb
  · simp [Except.isOk, Except.toBool] at h1
  rcases gc with e | u
  · simp [Except.isOk, Except.toBool] at h2
  simp only at h3
  subst h3
  constructor
  · simp only [chatBody, h4]
    rcases gen (mkPrompt md.title (chatContext md) q) with e | answer
    · exact ⟨[], rfl⟩
    · exact ⟨[Event.log ("🤖: " ++ answer)], rfl⟩
  · rw [chatContext, specContext, jsSlice]
    rcases hsplit : md.body with ⟨bl⟩
    by_cases hlen : 3000 < bl.length
    · rw [if_pos hlen]
    · rw [if_neg hlen]
      rw [List.take_of_length_le (Nat.le_of_not_lt hlen)]

/-- C3 witness: for the 5000-character body of `mdFive`, the context is
exactly its first 3000 characters, and the prompt built by `chatBody`
embeds it. -/
theorem chat_context_is_first_3000_witness :
    chatEnvFive.embedResult.isOk = true
    ∧ chatEnvFive.getCollection.isOk = true
    ∧ chatEnvFive.queryResult = .ok qrFive
    ∧ topMeta qrFive = some mdFive
    ∧ ((∃ rest, (chatBody chatEnvFive "What is this site?").1 =
        Event.genCall (mkPrompt mdFive.title (chatContext mdFive) "What is this site?") :: rest)
      ∧ chatContext mdFive = specContext mdFive.body)
    ∧ mdFive.body.data.length = 5000
    ∧ chatContext mdFive = ⟨List.replicate 3000 'a'⟩ :=
  ⟨rfl, rfl, rfl, rfl,
    chat_context_is_first_3000 chatEnvFive "What is this site?" qrFive mdFive rfl rfl rfl rfl,
    List.length_replicate 5000 'a',
    by
      have h : mdFive.body.data.take 3000 = List.replicate 3000 'a' := by
        show (List.replicate 5000 'a').take 3000 = List.replicate 3000 'a'
        rw [List.take_replicate]
        norm_num
      exact congrArg String.mk h⟩

/-! Claim C4. -/

/-- C4: when the nearest-neighbor query returns ok but its top-1 slot has
no metadata, `chat` logs the no-context message, returns normally, and
never calls the generative model: no `genCall` event occurs. -/
theorem chat_empty_query_reports_no_context (env : ChatEnv) (q : String)
    (qr : QueryResult)
    (h1 : env.embedResult.isOk = true) (h2 : env.getCollection.isOk = true)
    (h3 : env.queryResult = .ok qr) (h4 : topMeta qr = none) :
    chat env q = ([Event.log "🤖: No relevant context found"], none)
    ∧ ∀ p, Event.genCall p ∉ (chat env q).1 := by
  obtain ⟨er, gc, qres, gen⟩ := env
  rcases er with e | emb
  · simp [Except.isOk, Except.toBool] at h1
  rcases gc with e | u
  · simp [Except.isOk, Except.toBool] at h2
  simp only at h3
  subst h3
  have hchat : chat ⟨.ok emb, .ok u, .ok qr, gen⟩ q =
      ([Event.log "🤖: No relevant context found"], none) := by
    simp [chat, chatBody, h4]
  refine ⟨hchat, ?_⟩
  intro p hp
  rw [hchat] at hp
  simp at hp

/-- C4 witness: a query result with an empty top-1 slot; `chat` emits the
no-context log only and no generative call. -/
theorem chat_empty_query_reports_no_context_witness :
    (ChatEnv.embedResult ⟨.ok [], .ok (), .ok ⟨[[]]⟩, fun _ => .ok "unused"⟩).isOk = true
    ∧ topMeta ⟨[[]]⟩ = none
    ∧ (chat ⟨.ok [], .ok (), .ok ⟨[[]]⟩, fun _ => .ok "unused"⟩ "Give me 550 words on this site?" =
        ([Event.log "🤖: No relevant context found"], none)
      ∧ ∀ p, Event.genCall p ∉
          (chat ⟨.ok [], .ok (), .ok ⟨[[]]⟩, fun _ => .ok "unused"⟩ "Give me 550 words on this site?").1) :=
  ⟨rfl, rfl,
    chat_empty_query_reports_no_context ⟨.ok [], .ok (), .ok ⟨[[]]⟩, fun _ => .ok "unused"⟩
      "Give me 550 words on this site?" ⟨[[]]⟩ rfl rfl rfl rfl⟩

/-! Claim C5. -/

theorem mkPrompt_data (t c q : String) :
    (mkPrompt t c q).data =
      promptPiece1.data ++ t.data ++ promptPiece2.data ++ c.data ++
        promptPiece3.data ++ q.data ++ promptPiece4.data := by
  simp [mkPrompt, String.data_append]

set_option maxRecDepth 8192 in
/-- C5: whenever `chat` reaches answer generation, the prompt it sends
contains the retrieved title verbatim, the truncated body verbatim, the
question verbatim, the grounding instruction, and the literal fallback
sentence. -/
theorem chat_prompt_embeds_title_context_question (env : ChatEnv) (q : String)
    (qr : QueryResult) (md : Metadata)
    (h1 : env.embedResult.isOk = true) (h2 : env.getCollection.isOk = true)
    (h3 : env.queryResult = .ok qr) (h4 : topMeta qr = some md) :
    Event.genCall (mkPrompt md.title (chatContext md) q) ∈ (chatBody env q).1
    ∧ md.title.data <:+: (mkPrompt md.title (chatContext md) q).data
    ∧ (chatContext md).data <:+: (mkPrompt md.title (chatContext md) q).data
    ∧ q.data <:+: (mkPrompt md.title (chatContext md) q).data
    ∧ "Answer using ONLY the content above. If unsure, say: \"I couldn't find an answer.\"".data
        <:+: (mkPrompt md.title (chatContext md) q).data
    ∧ "I couldn't find an answer.".data <:+: (mkPrompt md.title (chatContext md) q).data := by
  obtain ⟨er, gc, qres, gen⟩ := env
  rcases er with e | emb
  · simp [Except.isOk, Except.toBool] at h1
  rcases gc with e | u
  · simp [Except.isOk, Except.toBool] at h2
  simp only at h3
  subst h3
  have hsuf : promptPiece4.data <:+: (mkPrompt md.title (chatContext md) q).data :=
    ⟨promptPiece1.data ++ md.title.data ++ promptPiece2.data ++ (chatContext md).data ++
        promptPiece3.data ++ q.data, [],
      by rw [mkPrompt_data]; simp [List.append_assoc]⟩
  refine ⟨?_, ?_, ?_, ?_, ?_, ?_⟩
  · simp only [chatBody, h4]
    rcases gen (mkPrompt md.title (chatContext md) q) with e | ans <;> simp
  · exact ⟨promptPiece1.data,
      promptPiece2.data ++ (chatContext md).data ++ promptPiece3.data ++ q.data ++ promptPiece4.data,
      by rw [mkPrompt_data]; simp [List.append_assoc]⟩
  · exact ⟨promptPiece1.data ++ md.title.data ++ promptPiece2.data,
      promptPiece3.data ++ q.data ++ promptPiece4.data,
      by rw [mkPrompt_data]; simp [List.append_assoc]⟩
  · exact ⟨promptPiece1.data ++ md.title.data ++ promptPiece2.data ++ (chatContext md).data ++
        promptPiece3.data, promptPiece4.data,
      by rw [mkPrompt_data]⟩
  · have hsub : "Answer using ONLY the content above. If unsure, say: \"I couldn't find an answer.\"".data
        <:+: promptPiece4.data := by decide
    exact hsub.trans hsuf
  · have hsub : "I couldn't find an answer.".data <:+: promptPiece4.data := by decide
    exact hsub.trans hsuf

/-- C5 witness: a concrete run reaching generation; all hypotheses hold by
`rfl` for a singleton query result. -/
theorem chat_prompt_embeds_witness :
    (ChatEnv.embedResult ⟨.ok [], .ok (), .ok ⟨[[⟨"Books to Scrape", "d", "All products on display"⟩]]⟩, fun _ => .ok "ans"⟩).isOk = true
    ∧ topMeta ⟨[[⟨"Books to Scrape", "d", "All products on display"⟩]]⟩ =
        some ⟨"Books to Scrape", "d", "All products on display"⟩
    ∧ (Event.genCall (mkPrompt (Metadata.title ⟨"Books to Scrape", "d", "All products on display"⟩)
          (chatContext ⟨"Books to Scrape", "d", "All products on display"⟩) "What is sold here?") ∈
        (chatBody ⟨.ok [], .ok (), .ok ⟨[[⟨"Books to Scrape", "d", "All products on display"⟩]]⟩, fun _ => .ok "ans"⟩ "What is sold here?").1
      ∧ (Metadata.title ⟨"Books to Scrape", "d", "All products on display"⟩).data <:+:
          (mkPrompt (Metadata.title ⟨"Books to Scrape", "d", "All products on display"⟩)
            (chatContext ⟨"Books to Scrape", "d", "All products on display"⟩) "What is sold here?").data
      ∧ (chatContext ⟨"Books to Scrape", "d", "All products on display"⟩).data <:+:
          (mkPrompt (Metadata.title ⟨"Books to Scrape", "d", "All products on display"⟩)
            (chatContext ⟨"Books to Scrape", "d", "All products on display"⟩) "What is sold here?").data
      ∧ ("What is sold here?" : String).data <:+:
          (mkPrompt (Metadata.title ⟨"Books to Scrape", "d", "All products on display"⟩)
            (chatContext ⟨"Books to Scrape", "d", "All products on display"⟩) "What is sold here?").data
      ∧ "Answer using ONLY the content above. If unsure, say: \"I couldn't find an answer.\"".data <:+:
          (mkPrompt (Metadata.title ⟨"Books to Scrape", "d", "All products on display"⟩)
            (chatContext ⟨"Books to Scrape", "d", "All products on display"⟩) "What is sold here?").data
      ∧ "I couldn't find an answer.".data <:+:
          (mkPrompt (Metadata.title ⟨"Books to Scrape", "d", "All products on display"⟩)
            (chatContext ⟨"Books to Scrape", "d", "All products on display"⟩) "What is sold here?").data) :=
  ⟨rfl, rfl,
    chat_prompt_embeds_title_context_question
      ⟨.ok [], .ok (), .ok ⟨[[⟨"Books to Scrape", "d", "All products on display"⟩]]⟩, fun _ => .ok "ans"⟩
      "What is sold here?" ⟨[[⟨"Books to Scrape", "d", "All products on display"⟩]]⟩
      ⟨"Books to Scrape", "d", "All products on display"⟩ rfl rfl rfl rfl⟩

/-! Claim C10. -/

/-- C10: the stored `metaDescription` never influences the answer path:
two retrieved documents that agree on title and body but differ in meta
description yield character-for-character the same prompt, and `chat`
produces the same observable run on either. -/
theorem chat_prompt_independent_of_metaDescription (env : ChatEnv) (q : String)
    (qr1 qr2 : QueryResult) (md1 md2 : Metadata)
    (h1 : env.queryResult = .ok qr1)
    (h2 : topMeta qr1 = some md1) (h3 : topMeta qr2 = some md2)
    (ht : md1.title = md2.title) (hb : md1.body = md2.body) :
    mkPrompt md1.title (chatContext md1) q = mkPrompt md2.title (chatContext md2) q
    ∧ chat env q = chat { env with queryResult := .ok qr2 } q := by
  have hctx : chatContext md1 = chatContext md2 := by
    rw [chatContext, chatContext, hb]
  have hprompt : mkPrompt md1.title (chatContext md1) q =
      mkPrompt md2.title (chatContext md2) q := by
    rw [ht, hctx]
  refine ⟨hprompt, ?_⟩
  obtain ⟨er, gc, qres, gen⟩ := env
  simp only at h1
  subst h1
  rcases er with e | emb
  · rfl
  rcases gc with e | u
  · rfl
  simp [chat, chatBody, h2, h3, hprompt]

/-- C10 witness: `mdDescA` and `mdDescB` differ only in meta description;
the prompts and the whole chat runs coincide. -/
theorem chat_prompt_independent_witness :
    chatEnvDescA.queryResult = .ok ⟨[[mdDescA]]⟩
    ∧ topMeta ⟨[[mdDescA]]⟩ = some mdDescA
    ∧ topMeta ⟨[[mdDescB]]⟩ = some mdDescB
    ∧ mdDescA.title = mdDescB.title
    ∧ mdDescA.body = mdDescB.body
    ∧ mdDescA.metaDescription ≠ mdDescB.metaDescription
    ∧ (mkPrompt mdDescA.title (chatContext mdDescA) "Q?" =
        mkPrompt mdDescB.title (chatContext mdDescB) "Q?"
      ∧ chat chatEnvDescA "Q?" =
        chat { chatEnvDescA with queryResult := .ok ⟨[[mdDescB]]⟩ } "Q?") :=
  ⟨rfl, rfl, rfl, rfl, rfl, by decide,
    chat_prompt_independent_of_metaDescription chatEnvDescA "Q?"
      ⟨[[mdDescA]]⟩ ⟨[[mdDescB]]⟩ mdDescA mdDescB rfl rfl rfl rfl rfl⟩

/-! Helper lemmas for the error-propagation and reset claims. -/

theorem chat_second_none (env : ChatEnv) (q : String) : (chat env q).2 = none := by
  unfold chat
  rcases chatBody env q with ⟨evs, _ | e⟩ <;> rfl

theorem ingest_embed_error (env : IngestEnv) (url : String) (e : Err)
    (hf : (scrapeWebpage env.fetch).result.isOk = true)
    (he : env.embed = .error e) : (ingest env url).2 = some e := by
  obtain ⟨fenv, emb, ins⟩ := env
  simp only at hf he
  subst he
  rcases hres : (scrapeWebpage fenv).result with e3 | page
  · rw [hres] at hf
    simp [Except.isOk, Except.toBool] at hf
  · simp [ingest, hres]

theorem hasCollection_filter_ne (s : ChromaState) (name : String) :
    hasCollection (s.filter fun p => !(p.1 == name)) name = false := by
  induction s with
  | nil => rfl
  | cons hd tl ih =>
    rw [List.filter_cons]
    cases h : (hd.1 == name)
    · simp only [h, Bool.not_false, if_pos]
      rw [show hasCollection (hd :: tl.filter fun p => !(p.1 == name)) name =
          ((hd.1 == name) || hasCollection (tl.filter fun p => !(p.1 == name)) name) from rfl]
      rw [h, ih]
      rfl
    · simp only [h, Bool.not_true, Bool.false_eq_true, if_neg]
      exact ih

theorem reset_none_no_collection (s : ChromaState) :
    hasCollection (resetCollection none s).1 WEB_COLLECTION = false := by
  by_cases h : hasCollection s WEB_COLLECTION = true
  · unfold resetCollection deleteCollectionCall
    rw [if_pos h]
    exact hasCollection_filter_ne s WEB_COLLECTION
  · unfold resetCollection deleteCollectionCall
    rw [if_neg h]
    exact Bool.not_eq_true _ |>.mp h

theorem reset_none_noop_of_absent (s : ChromaState)
    (h : hasCollection s WEB_COLLECTION = false) :
    resetCollection none s = (s, [], none) := by
  unfold resetCollection deleteCollectionCall
  rw [if_neg (by simp [h])]

/-! Claim C7. -/

/-- C7: failure containment differs between the two orchestrator paths:
`chat` never propagates an error (its local handler logs `Chat Error:` and
returns normally), while an embedding failure inside `ingest` propagates
out of `ingest` and is handled only by `main`'s single top-level catch,
which appends the `Main Error:` log and ends the run. -/
theorem chat_contains_ingest_propagates
    (cenv : ChatEnv) (q : String)
    (cenv2 : ChatEnv) (e2 : Err) (hc2 : cenv2.embedResult = .error e2)
    (ienv : IngestEnv) (url : String) (e : Err)
    (hf : (scrapeWebpage ienv.fetch).result.isOk = true)
    (he : ienv.embed = .error e)
    (menv : MainEnv) (s : ChromaState)
    (hmf : (scrapeWebpage menv.ingestEnv.fetch).result.isOk = true)
    (hme : menv.ingestEnv.embed = .error e) :
    (chat cenv q).2 = none
    ∧ chat cenv2 q = ([Event.logError "Chat Error:" e2.message], none)
    ∧ (ingest ienv url).2 = some e
    ∧ ∃ evs, main menv s = evs ++ [Event.logError "Main Error:" e.message] := by
  refine ⟨chat_second_none cenv q, ?_, ingest_embed_error ienv url e hf he, ?_⟩
  · obtain ⟨er, gc, qres, gen⟩ := cenv2
    simp only at hc2
    subst hc2
    rfl
  · obtain ⟨rext, ienv2, cenv3⟩ := menv
    simp only at hmf hme
    have hing : (ingest ienv2 mainUrl).2 = some e :=
      ingest_embed_error ienv2 mainUrl e hmf hme
    rcases hi : ingest ienv2 mainUrl with ⟨evs2, oe⟩
    rw [hi] at hing
    simp only at hing
    subst hing
    exact ⟨(resetCollection rext s).2.1 ++ evs2, by simp [main, hi]⟩

/-- C7 witness: concrete environments in which the chat embedding fails
(contained locally) and the ingest embedding fails (propagated to
`main`'s top-level handler). -/
theorem chat_contains_ingest_propagates_witness :
    chatEnvEmbedFail.embedResult = .error ⟨"API key not valid"⟩
    ∧ (scrapeWebpage ingestEnvEmbedFail.fetch).result.isOk = true
    ∧ ingestEnvEmbedFail.embed = .error ⟨"quota exceeded"⟩
    ∧ (scrapeWebpage mainEnvEmbedFail.ingestEnv.fetch).result.isOk = true
    ∧ mainEnvEmbedFail.ingestEnv.embed = .error ⟨"quota exceeded"⟩
    ∧ ((chat mainEnvEmbedFail.chatEnv "Q?").2 = none
      ∧ chat chatEnvEmbedFail "Q?" = ([Event.logError "Chat Error:" "API key not valid"], none)
      ∧ (ingest ingestEnvEmbedFail mainUrl).2 = some ⟨"quota exceeded"⟩
      ∧ ∃ evs, main mainEnvEmbedFail [] =
          evs ++ [Event.logError "Main Error:" "quota exceeded"]) :=
  ⟨rfl, rfl, rfl, rfl, rfl,
    chat_contains_ingest_propagates mainEnvEmbedFail.chatEnv "Q?"
      chatEnvEmbedFail ⟨"API key not valid"⟩ rfl
      ingestEnvEmbedFail mainUrl ⟨"quota exceeded"⟩ rfl rfl
      mainEnvEmbedFail [] rfl rfl⟩

/-! Claim C8. -/

/-- C8: `resetCollection` never surfaces an error to its caller — the
propagated-error component is `none` for every deletion outcome
(not-found or any injected external failure); deletion with no external
failure leaves no reserved-name collection behind; and under an external
failure of any cause it returns normally as a no-op. -/
theorem resetCollection_swallows_all (ext : Option Err) (e : Err) (s : ChromaState) :
    (resetCollection ext s).2.2 = none
    ∧ hasCollection (resetCollection none s).1 WEB_COLLECTION = false
    ∧ resetCollection (some e) s = (s, [], none) := by
  refine ⟨?_, reset_none_no_collection s, rfl⟩
  rcases ext with _ | e3
  · rcases hd : deleteCollectionCall none s WEB_COLLECTION with e4 | s2 <;>
      simp [resetCollection, hd]
  · rfl

/-! Claim C9. -/

/-- C9: `resetCollection` is idempotent: after one reset the reserved
collection is gone, and a second reset is a complete no-op that returns
normally (same state, no events, no error) even though the collection no
longer exists. -/
theorem resetCollection_idempotent (s : ChromaState) :
    resetCollection none (resetCollection none s).1 =
      ((resetCollection none s).1, [], none)
    ∧ hasCollection (resetCollection none s).1 WEB_COLLECTION = false
    ∧ hasCollection (resetCollection none (resetCollection none s).1).1
        WEB_COLLECTION = false := by
  have h1 := reset_none_no_collection s
  have h2 := reset_none_noop_of_absent _ h1
  exact ⟨h2, h1, by rw [h2]; exact h1⟩

end WebScraper
